import Mathlib

/-!
Shallow embedding of the AWS Greengrass Core SDK stub
(src/stubs/src/greengrasssdk.c together with the declarations and enums of
src/stubs/include/shared/greengrasssdk.h).

Modelling conventions:
* Each C function becomes a total Lean function.  A C out-parameter
  (a pointer the function could write through) is modelled by explicit state
  passing: the function receives the value currently stored at the pointed-to
  location and returns the value stored there after the call, paired with the
  returned `gg_error`.  The stub bodies perform no writes, so every function
  returns its out-parameter values unchanged.
* Opaque pointer typedefs (`gg_request`, `gg_publish_options`) are modelled as
  numeric handles; `gg_publish_options` arguments may be NULL in C, so the
  handle is wrapped in `Option` with `none` standing for NULL.
* Nullable `const char *` arguments are `Option String` (`none` = NULL);
  byte buffers (`void *` plus a size) are `List Nat` of the bytes currently in
  the buffer; `size_t` and `uint32_t` are `Nat` (no stub computes with them,
  so no overflow arithmetic arises).
* The variadic tail of `gg_log` is modelled as a list of formatted arguments;
  the stub ignores it.
-/

/-- Enum `gg_error` of greengrasssdk.h lines 27-43.  The C enum fixes
GGE_SUCCESS = 0 and a 0x7FFFFFFF pad member to force the enum width; no stub
computes with the numeric values, so plain constructors suffice. -/
inductive gg_error where
  | GGE_SUCCESS
  | GGE_OUT_OF_MEMORY
  | GGE_INVALID_PARAMETER
  | GGE_INVALID_STATE
  | GGE_INTERNAL_FAILURE
  | GGE_TERMINATE
  | GGE_RESERVED_MAX
  | GGE_RESERVED_PAD
  deriving DecidableEq

/-- Enum `gg_request_status` of greengrasssdk.h lines 53-67. -/
inductive gg_request_status where
  | GG_REQUEST_SUCCESS
  | GG_REQUEST_HANDLED
  | GG_REQUEST_UNHANDLED
  | GG_REQUEST_UNKNOWN
  | GG_REQUEST_AGAIN
  | GG_REQUEST_RESERVED_MAX
  | GG_REQUEST_RESERVED_PAD
  deriving DecidableEq

/-- Struct `gg_request_result` of greengrasssdk.h lines 73-76: a single
`request_status` field. -/
structure gg_request_result where
  request_status : gg_request_status
  deriving DecidableEq

/-- Opaque handle `typedef struct _gg_request *gg_request` (greengrasssdk.h
line 45), modelled as a numeric handle value. -/
abbrev gg_request := Nat

/-- Struct `gg_lambda_context` of greengrasssdk.h lines 83-86. -/
structure gg_lambda_context where
  function_arn : Option String
  client_context : Option String

/-- Enum `gg_invoke_type` of greengrasssdk.h lines 91-99. -/
inductive gg_invoke_type where
  | GG_INVOKE_EVENT
  | GG_INVOKE_REQUEST_RESPONSE
  | GG_INVOKE_RESERVED_MAX
  | GG_INVOKE_RESERVED_PAD
  deriving DecidableEq

/-- Struct `gg_invoke_options` of greengrasssdk.h lines 120-127. -/
structure gg_invoke_options where
  function_arn : Option String
  customer_context : Option String
  qualifier : Option String
  type : gg_invoke_type
  payload : List Nat
  payload_size : Nat

/-- Enum `gg_queue_full_policy_options` of greengrasssdk.h lines 132-142. -/
inductive gg_queue_full_policy_options where
  | GG_QUEUE_FULL_POLICY_BEST_EFFORT
  | GG_QUEUE_FULL_POLICY_ALL_OR_ERROR
  | GG_QUEUE_FULL_POLICY_RESERVED_MAX
  | GG_QUEUE_FULL_POLICY_RESERVED_PAD
  deriving DecidableEq

/-- Opaque handle `typedef struct _gg_publish_options *gg_publish_options`
(greengrasssdk.h line 144); `none` stands for a NULL pointer, which
`gg_publish` passes according to the header note at line 363. -/
abbrev gg_publish_options := Option Nat

/-- Enum `gg_log_level` of greengrasssdk.h lines 149-165. -/
inductive gg_log_level where
  | GG_LOG_RESERVED_NOTSET
  | GG_LOG_DEBUG
  | GG_LOG_INFO
  | GG_LOG_WARN
  | GG_LOG_ERROR
  | GG_LOG_FATAL
  | GG_LOG_RESERVED_MAX
  | GG_LOG_RESERVED_PAD
  deriving DecidableEq

/-- Function-pointer type `gg_lambda_handler` of greengrasssdk.h line 238. -/
abbrev gg_lambda_handler := gg_lambda_context → Unit

/-- Stub `gg_global_init` (greengrasssdk.c lines 3-5): body is
`return GGE_SUCCESS;`. -/
def gg_global_init (opt : Nat) : gg_error :=
  gg_error.GGE_SUCCESS

/-- Stub `gg_log` (greengrasssdk.c lines 7-10): ignores level, format and the
variadic arguments and returns GGE_SUCCESS. -/
def gg_log (level : gg_log_level) (format : String) (varargs : List String) :
    gg_error :=
  gg_error.GGE_SUCCESS

/-- Stub `gg_request_init` (greengrasssdk.c lines 12-15): never writes through
`*ggreq`; the result pairs the error code with the unchanged pointee. -/
def gg_request_init (ggreq : gg_request) : gg_error × gg_request :=
  (gg_error.GGE_SUCCESS, ggreq)

/-- Stub `gg_request_close` (greengrasssdk.c lines 17-20). -/
def gg_request_close (ggreq : gg_request) : gg_error :=
  gg_error.GGE_SUCCESS

/-- Stub `gg_request_read` (greengrasssdk.c lines 22-26): never writes the
buffer or `*amount_read`; the result carries both back unchanged. -/
def gg_request_read (ggreq : gg_request) (buffer : List Nat)
    (buffer_size : Nat) (amount_read : Nat) :
    gg_error × List Nat × Nat :=
  (gg_error.GGE_SUCCESS, buffer, amount_read)

/-- Stub `gg_runtime_start` (greengrasssdk.c lines 28-31): never stores or
calls the handler. -/
def gg_runtime_start (handler : gg_lambda_handler) (opt : Nat) : gg_error :=
  gg_error.GGE_SUCCESS

/-- Stub `gg_lambda_handler_read` (greengrasssdk.c lines 33-37): never writes
the buffer or `*amount_read`. -/
def gg_lambda_handler_read (buffer : List Nat) (buffer_size : Nat)
    (amount_read : Nat) : gg_error × List Nat × Nat :=
  (gg_error.GGE_SUCCESS, buffer, amount_read)

/-- Stub `gg_lambda_handler_write_response` (greengrasssdk.c lines 38-42). -/
def gg_lambda_handler_write_response (response : List Nat)
    (response_size : Nat) : gg_error :=
  gg_error.GGE_SUCCESS

/-- Stub `gg_lambda_handler_write_error` (greengrasssdk.c lines 44-47). -/
def gg_lambda_handler_write_error (error_message : String) : gg_error :=
  gg_error.GGE_SUCCESS

/-- Stub `gg_get_secret_value` (greengrasssdk.c lines 49-54): never writes
`result->request_status`; the unchanged record is returned alongside the
error code. -/
def gg_get_secret_value (ggreq : gg_request) (secret_id : Option String)
    (version_id : Option String) (version_stage : Option String)
    (result : gg_request_result) : gg_error × gg_request_result :=
  (gg_error.GGE_SUCCESS, result)

/-- Stub `gg_invoke` (greengrasssdk.c lines 56-60): never reads `opts` and
never writes `result->request_status`. -/
def gg_invoke (ggreq : gg_request) (opts : Option gg_invoke_options)
    (result : gg_request_result) : gg_error × gg_request_result :=
  (gg_error.GGE_SUCCESS, result)

/-- Stub `gg_publish_options_init` (greengrasssdk.c lines 62-65): never writes
through `*opts`. -/
def gg_publish_options_init (opts : gg_publish_options) :
    gg_error × gg_publish_options :=
  (gg_error.GGE_SUCCESS, opts)

/-- Stub `gg_publish_options_free` (greengrasssdk.c lines 67-70). -/
def gg_publish_options_free (opts : gg_publish_options) : gg_error :=
  gg_error.GGE_SUCCESS

/-- Stub `gg_publish_options_set_queue_full_policy` (greengrasssdk.c lines
72-76): ignores the policy. -/
def gg_publish_options_set_queue_full_policy (opts : gg_publish_options)
    (policy : gg_queue_full_policy_options) : gg_error :=
  gg_error.GGE_SUCCESS

/-- Stub `gg_publish_with_options` (greengrasssdk.c lines 78-83): never reads
the payload or options and never writes `result->request_status`. -/
def gg_publish_with_options (ggreq : gg_request) (topic : Option String)
    (payload : List Nat) (payload_size : Nat) (opts : gg_publish_options)
    (result : gg_request_result) : gg_error × gg_request_result :=
  (gg_error.GGE_SUCCESS, result)

/-- Stub `gg_publish` (greengrasssdk.c lines 85-89). -/
def gg_publish (ggreq : gg_request) (topic : Option String)
    (payload : List Nat) (payload_size : Nat) (result : gg_request_result) :
    gg_error × gg_request_result :=
  (gg_error.GGE_SUCCESS, result)

/-- Stub `gg_get_thing_shadow` (greengrasssdk.c lines 91-95). -/
def gg_get_thing_shadow (ggreq : gg_request) (thing_name : Option String)
    (result : gg_request_result) : gg_error × gg_request_result :=
  (gg_error.GGE_SUCCESS, result)

/-- Stub `gg_delete_thing_shadow` (greengrasssdk.c lines 97-101). -/
def gg_delete_thing_shadow (ggreq : gg_request) (thing_name : Option String)
    (result : gg_request_result) : gg_error × gg_request_result :=
  (gg_error.GGE_SUCCESS, result)

/-- Stub `gg_update_thing_shadow` (greengrasssdk.c lines 103-108). -/
def gg_update_thing_shadow (ggreq : gg_request) (thing_name : Option String)
    (update_payload : Option String) (result : gg_request_result) :
    gg_error × gg_request_result :=
  (gg_error.GGE_SUCCESS, result)

/-- Iterated calls to the stub `gg_request_read` on one handle with a fixed
buffer size, threading the buffer contents and the `*amount_read` cell
through `k` successive calls (the read loop the header's streaming contract
prescribes). -/
def gg_request_read_loop (ggreq : gg_request) (buffer_size : Nat) :
    Nat → List Nat × Nat → List Nat × Nat
  | 0, s => s
  | k + 1, s =>
      gg_request_read_loop ggreq buffer_size k
        (gg_request_read ggreq s.1 buffer_size s.2).2

/-- Concrete topic string used in closed evaluations. -/
def topic0 : String := "some/topic"

/-- Concrete error message used in closed evaluations. -/
def bad_input_msg : String := "bad input"

/-- Concrete log message used in closed evaluations. -/
def fatal_msg0 : String := "fatal failure"

/-- Concrete function ARN used in closed evaluations. -/
def arn0 : String := "arn:aws:lambda:target"

/-- Concrete empty C string, distinct from a NULL pointer, used in closed
evaluations. -/
def empty_string : String := ""

/-- Concrete `gg_invoke_options` value used in closed evaluations. -/
def invoke_opts0 : gg_invoke_options :=
  ⟨some arn0, none, none, gg_invoke_type.GG_INVOKE_REQUEST_RESPONSE, [], 0⟩

/-- Iterating the stub read any number of times leaves the buffer and the
`*amount_read` cell exactly as they were: `gg_request_read` performs no
writes, so the loop is the identity on its state. -/
theorem gg_request_read_loop_fixed (ggreq : gg_request) (buffer_size : Nat) :
    ∀ (k : Nat) (s : List Nat × Nat),
      gg_request_read_loop ggreq buffer_size k s = s
  | 0, _ => rfl
  | k + 1, s => gg_request_read_loop_fixed ggreq buffer_size k s

/-- Claim C1: every public gg_* function of the stub returns GGE_SUCCESS
unconditionally and performs no other observable computation — each call
leaves every out-parameter value exactly as it found it, for all inputs. -/
theorem claim_C1_every_function_returns_success
    (opt opt2 : Nat) (level : gg_log_level) (format : String)
    (varargs : List String) (ggreq : gg_request) (buffer : List Nat)
    (buffer_size amount_read : Nat) (handler : gg_lambda_handler)
    (response : List Nat) (response_size : Nat) (error_message : String)
    (secret_id version_id version_stage : Option String)
    (result : gg_request_result) (iopts : Option gg_invoke_options)
    (popts : gg_publish_options) (policy : gg_queue_full_policy_options)
    (topic thing_name update_payload : Option String) (payload : List Nat)
    (payload_size : Nat) :
    gg_global_init opt = gg_error.GGE_SUCCESS ∧
    gg_log level format varargs = gg_error.GGE_SUCCESS ∧
    gg_request_init ggreq = (gg_error.GGE_SUCCESS, ggreq) ∧
    gg_request_close ggreq = gg_error.GGE_SUCCESS ∧
    gg_request_read ggreq buffer buffer_size amount_read
      = (gg_error.GGE_SUCCESS, buffer, amount_read) ∧
    gg_runtime_start handler opt2 = gg_error.GGE_SUCCESS ∧
    gg_lambda_handler_read buffer buffer_size amount_read
      = (gg_error.GGE_SUCCESS, buffer, amount_read) ∧
    gg_lambda_handler_write_response response response_size
      = gg_error.GGE_SUCCESS ∧
    gg_lambda_handler_write_error error_message = gg_error.GGE_SUCCESS ∧
    gg_get_secret_value ggreq secret_id version_id version_stage result
      = (gg_error.GGE_SUCCESS, result) ∧
    gg_invoke ggreq iopts result = (gg_error.GGE_SUCCESS, result) ∧
    gg_publish_options_init popts = (gg_error.GGE_SUCCESS, popts) ∧
    gg_publish_options_free popts = gg_error.GGE_SUCCESS ∧
    gg_publish_options_set_queue_full_policy popts policy
      = gg_error.GGE_SUCCESS ∧
    gg_publish_with_options ggreq topic payload payload_size popts result
      = (gg_error.GGE_SUCCESS, result) ∧
    gg_publish ggreq topic payload payload_size result
      = (gg_error.GGE_SUCCESS, result) ∧
    gg_get_thing_shadow ggreq thing_name result
      = (gg_error.GGE_SUCCESS, result) ∧
    gg_delete_thing_shadow ggreq thing_name result
      = (gg_error.GGE_SUCCESS, result) ∧
    gg_update_thing_shadow ggreq thing_name update_payload result
      = (gg_error.GGE_SUCCESS, result) :=
  ⟨rfl, rfl, rfl, rfl, rfl, rfl, rfl, rfl, rfl, rfl, rfl, rfl, rfl, rfl, rfl,
    rfl, rfl, rfl, rfl⟩

/-- Claim C2 counterexample: handle 1 is closed by gg_request_close, yet the
subsequent gg_request_read on it and the second gg_request_close both return
GGE_SUCCESS, not GGE_INVALID_STATE, refuting the claim at this concrete
trace. -/
theorem claim_C2_counterexample :
    gg_request_close 1 = gg_error.GGE_SUCCESS ∧
    (gg_request_read 1 [] 16 0).1 = gg_error.GGE_SUCCESS ∧
    (gg_request_read 1 [] 16 0).1 ≠ gg_error.GGE_INVALID_STATE ∧
    gg_request_close 1 ≠ gg_error.GGE_INVALID_STATE := by
  decide

/-- Claim C2 amended: the stub keeps no per-handle state, so closing a handle
does not invalidate it — after gg_request_close returns, gg_request_read, a
second gg_request_close, and every other gg_* call taking that handle still
return GGE_SUCCESS, never GGE_INVALID_STATE. -/
theorem claim_C2_amended_closed_handle_ops_return_success
    (ggreq : gg_request) (buffer : List Nat) (buffer_size amount_read : Nat)
    (secret_id version_id version_stage topic thing_name
      update_payload : Option String) (payload : List Nat)
    (payload_size : Nat) (popts : gg_publish_options)
    (iopts : Option gg_invoke_options) (result : gg_request_result) :
    gg_request_close ggreq = gg_error.GGE_SUCCESS ∧
    (gg_request_read ggreq buffer buffer_size amount_read).1
      = gg_error.GGE_SUCCESS ∧
    gg_request_close ggreq = gg_error.GGE_SUCCESS ∧
    (gg_get_secret_value ggreq secret_id version_id version_stage result).1
      = gg_error.GGE_SUCCESS ∧
    (gg_invoke ggreq iopts result).1 = gg_error.GGE_SUCCESS ∧
    (gg_publish ggreq topic payload payload_size result).1
      = gg_error.GGE_SUCCESS ∧
    (gg_publish_with_options ggreq topic payload payload_size popts result).1
      = gg_error.GGE_SUCCESS ∧
    (gg_get_thing_shadow ggreq thing_name result).1 = gg_error.GGE_SUCCESS ∧
    (gg_update_thing_shadow ggreq thing_name update_payload result).1
      = gg_error.GGE_SUCCESS ∧
    (gg_delete_thing_shadow ggreq thing_name result).1
      = gg_error.GGE_SUCCESS :=
  ⟨rfl, rfl, rfl, rfl, rfl, rfl, rfl, rfl, rfl, rfl⟩

/-- Claim C3 counterexample: on handle 1 with a 4-byte buffer and the
caller's amount_read cell holding 7, no number of repeated gg_request_read
calls ever sets the cell to 0 — the stub never writes it, so end-of-stream
is never signalled. -/
theorem claim_C3_counterexample :
    ¬ ∃ k : Nat, (gg_request_read_loop 1 4 k ([0, 0, 0, 0], 7)).2 = 0 := by
  rintro ⟨k, hk⟩
  rw [gg_request_read_loop_fixed] at hk
  exact absurd hk (by decide)

/-- Claim C3 amended: gg_request_read can be called repeatedly on an open
handle and always returns GGE_SUCCESS, but it never writes the buffer or
the amount_read cell, so no call ever sets amount_read (to 0 or anything
else); the handle can still be closed afterwards with gg_request_close
returning GGE_SUCCESS. -/
theorem claim_C3_amended_reads_succeed_never_write_amount
    (ggreq : gg_request) (buffer : List Nat)
    (buffer_size amount_read k : Nat) :
    (gg_request_read ggreq buffer buffer_size amount_read).1
      = gg_error.GGE_SUCCESS ∧
    gg_request_read_loop ggreq buffer_size k (buffer, amount_read)
      = (buffer, amount_read) ∧
    gg_request_close ggreq = gg_error.GGE_SUCCESS :=
  ⟨rfl, gg_request_read_loop_fixed ggreq buffer_size k (buffer, amount_read),
    rfl⟩

/-- Claim C4 evidence: publish on handle 1 with options handle 7 carrying the
all-or-error policy (the set-policy call accepts it and returns GGE_SUCCESS
while storing nothing) leaves result->request_status at its prior value
GG_REQUEST_UNKNOWN — the call sets neither GG_REQUEST_SUCCESS nor
GG_REQUEST_AGAIN, contradicting the atomic-delivery contract the header
documents for this policy. -/
theorem claim_C4_stub_never_sets_publish_status :
    gg_publish_options_set_queue_full_policy (some 7)
      gg_queue_full_policy_options.GG_QUEUE_FULL_POLICY_ALL_OR_ERROR
      = gg_error.GGE_SUCCESS ∧
    (gg_publish_with_options 1 (some topic0) [42] 1 (some 7)
      ⟨gg_request_status.GG_REQUEST_UNKNOWN⟩).1 = gg_error.GGE_SUCCESS ∧
    (gg_publish_with_options 1 (some topic0) [42] 1 (some 7)
      ⟨gg_request_status.GG_REQUEST_UNKNOWN⟩).2.request_status
      = gg_request_status.GG_REQUEST_UNKNOWN ∧
    (gg_publish_with_options 1 (some topic0) [42] 1 (some 7)
      ⟨gg_request_status.GG_REQUEST_UNKNOWN⟩).2.request_status
      ≠ gg_request_status.GG_REQUEST_SUCCESS ∧
    (gg_publish_with_options 1 (some topic0) [42] 1 (some 7)
      ⟨gg_request_status.GG_REQUEST_UNKNOWN⟩).2.request_status
      ≠ gg_request_status.GG_REQUEST_AGAIN := by
  decide

/-- Claim C5 evidence: the handler's single gg_lambda_handler_write_error
call returns GGE_SUCCESS but records nothing, and the invoker's gg_invoke
leaves result->request_status at its prior value GG_REQUEST_SUCCESS — it is
never set to GG_REQUEST_HANDLED, contradicting the header's note on
gg_lambda_handler_write_error. -/
theorem claim_C5_invoke_never_reports_handled :
    gg_lambda_handler_write_error bad_input_msg = gg_error.GGE_SUCCESS ∧
    (gg_invoke 1 (some invoke_opts0)
      ⟨gg_request_status.GG_REQUEST_SUCCESS⟩).1 = gg_error.GGE_SUCCESS ∧
    (gg_invoke 1 (some invoke_opts0)
      ⟨gg_request_status.GG_REQUEST_SUCCESS⟩).2.request_status
      = gg_request_status.GG_REQUEST_SUCCESS ∧
    (gg_invoke 1 (some invoke_opts0)
      ⟨gg_request_status.GG_REQUEST_SUCCESS⟩).2.request_status
      ≠ gg_request_status.GG_REQUEST_HANDLED := by
  decide

/-- Claim C6 counterexample: a write-response has just succeeded, yet the
immediately following second write-response returns GGE_SUCCESS, not
GGE_INVALID_STATE; likewise handler-read and write-error issued with no
invocation active return GGE_SUCCESS — invalid sequencing is silently
ignored at this concrete trace. -/
theorem claim_C6_counterexample :
    gg_lambda_handler_write_response [1] 1 = gg_error.GGE_SUCCESS ∧
    gg_lambda_handler_write_response [1] 1 ≠ gg_error.GGE_INVALID_STATE ∧
    gg_lambda_handler_write_error bad_input_msg
      ≠ gg_error.GGE_INVALID_STATE ∧
    (gg_lambda_handler_read [] 4 0).1 ≠ gg_error.GGE_INVALID_STATE := by
  decide

/-- Claim C6 amended: the stub keeps no runtime-loop state, so
gg_lambda_handler_read, gg_lambda_handler_write_response and
gg_lambda_handler_write_error return GGE_SUCCESS for every input in every
call sequence — double writes and out-of-invocation calls are silently
ignored, never reported as GGE_INVALID_STATE. -/
theorem claim_C6_amended_handler_ops_always_succeed
    (buffer response : List Nat)
    (buffer_size amount_read response_size : Nat)
    (error_message : String) :
    (gg_lambda_handler_read buffer buffer_size amount_read).1
      = gg_error.GGE_SUCCESS ∧
    gg_lambda_handler_write_response response response_size
      = gg_error.GGE_SUCCESS ∧
    gg_lambda_handler_write_error error_message = gg_error.GGE_SUCCESS :=
  ⟨rfl, rfl, rfl⟩

/-- Claim C7 evidence: gg_log called at level GG_LOG_FATAL returns normally
with GGE_SUCCESS and behaves identically to a GG_LOG_DEBUG call — the stub
never terminates the process, contradicting the header's note that fatal
implies system exit. -/
theorem claim_C7_fatal_log_returns_normally :
    gg_log gg_log_level.GG_LOG_FATAL fatal_msg0 [] = gg_error.GGE_SUCCESS ∧
    gg_log gg_log_level.GG_LOG_DEBUG fatal_msg0 []
      = gg_log gg_log_level.GG_LOG_FATAL fatal_msg0 [] := by
  decide

/-- Claim C8 counterexample: gg_get_secret_value with NULL version_id and
version_stage is the same function of the remaining arguments and of the
starting result state as gg_get_secret_value with empty-string qualifiers —
no choice of other arguments or starting state distinguishes the two calls,
refuting the claimed observability by proving its negation. -/
theorem claim_C8_counterexample :
    (fun (ggreq : gg_request) (secret_id : Option String)
        (result : gg_request_result) =>
      gg_get_secret_value ggreq secret_id none none result)
      = (fun (ggreq : gg_request) (secret_id : Option String)
        (result : gg_request_result) =>
      gg_get_secret_value ggreq secret_id (some empty_string)
        (some empty_string) result) :=
  rfl

/-- Claim C8 amended: the stub ignores the version_id and version_stage
qualifiers entirely — any two choices of qualifiers (NULL, empty, or
otherwise) yield identical calls, each returning GGE_SUCCESS and leaving
the result record unchanged. -/
theorem claim_C8_amended_version_qualifiers_ignored
    (ggreq : gg_request) (secret_id version_id version_stage
      other_version_id other_version_stage : Option String)
    (result : gg_request_result) :
    gg_get_secret_value ggreq secret_id version_id version_stage result
      = gg_get_secret_value ggreq secret_id other_version_id
        other_version_stage result ∧
    gg_get_secret_value ggreq secret_id version_id version_stage result
      = (gg_error.GGE_SUCCESS, result) :=
  ⟨rfl, rfl⟩

/-- Claim C9: every out-parameter survives every call unmodified —
gg_request_init leaves the handle cell, the read functions leave the buffer
and the amount_read cell, gg_publish_options_init leaves the options cell,
and every result-taking operation leaves result->request_status exactly as
the caller set them. -/
theorem claim_C9_out_parameters_unmodified
    (ggreq : gg_request) (buffer : List Nat) (buffer_size amount_read : Nat)
    (popts : gg_publish_options) (result : gg_request_result)
    (secret_id version_id version_stage topic thing_name
      update_payload : Option String) (iopts : Option gg_invoke_options)
    (payload : List Nat) (payload_size : Nat) :
    (gg_request_init ggreq).2 = ggreq ∧
    (gg_request_read ggreq buffer buffer_size amount_read).2.1 = buffer ∧
    (gg_request_read ggreq buffer buffer_size amount_read).2.2
      = amount_read ∧
    (gg_lambda_handler_read buffer buffer_size amount_read).2.1 = buffer ∧
    (gg_lambda_handler_read buffer buffer_size amount_read).2.2
      = amount_read ∧
    (gg_publish_options_init popts).2 = popts ∧
    (gg_invoke ggreq iopts result).2.request_status
      = result.request_status ∧
    (gg_publish ggreq topic payload payload_size result).2.request_status
      = result.request_status ∧
    (gg_publish_with_options ggreq topic payload payload_size popts
      result).2.request_status = result.request_status ∧
    (gg_get_secret_value ggreq secret_id version_id version_stage
      result).2.request_status = result.request_status ∧
    (gg_get_thing_shadow ggreq thing_name result).2.request_status
      = result.request_status ∧
    (gg_update_thing_shadow ggreq thing_name update_payload
      result).2.request_status = result.request_status ∧
    (gg_delete_thing_shadow ggreq thing_name result).2.request_status
      = result.request_status :=
  ⟨rfl, rfl, rfl, rfl, rfl, rfl, rfl, rfl, rfl, rfl, rfl, rfl, rfl⟩

/-- Claim C10: gg_publish is extensionally equal to gg_publish_with_options
applied with a NULL options handle — for every handle, topic, payload,
payload size and result state, the two calls return the same error code and
the same out-parameter values. -/
theorem claim_C10_publish_equals_publish_with_null_options
    (ggreq : gg_request) (topic : Option String) (payload : List Nat)
    (payload_size : Nat) (result : gg_request_result) :
    gg_publish ggreq topic payload payload_size result
      = gg_publish_with_options ggreq topic payload payload_size none
        result :=
  rfl
